import Mathlib

/-!
Verification of the acta-generator repository (src/main.py, src/app.py).

The Python source is shallowly embedded: strings become `List Char` or
`String`, the regular-expression searches of `re.search` / `re.sub` /
`re.split` / `re.findall` are given a small backtracking engine whose
outcome order mirrors the Python engine on the constructs the program
uses, and the external collaborators (pdfplumber, Gemini, docxtpl) enter
as explicit parameters or, where the spec treats them as black boxes,
as definitions modelled from the spec.
-/

/-- Python whitespace class over the ASCII range, as used by the regex
class backslash-s and by str.strip in this program. -/
def pyIsSpace (c : Char) : Bool :=
  c = ' ' || c = '\t' || c = '\n' || c = '\r' || c = '\x0b' || c = '\x0c'

/-- Lowercasing as Python str.lower performs it on the characters this
program manipulates: the ASCII range plus the accented Spanish capitals
appearing in the source patterns. -/
def pyLower (c : Char) : Char :=
  if c = 'Á' then 'á' else if c = 'É' then 'é' else if c = 'Í' then 'í'
  else if c = 'Ó' then 'ó' else if c = 'Ú' then 'ú' else if c = 'Ñ' then 'ñ'
  else Char.toLower c

/-- Uppercasing as Python str.upper performs it on the characters this
program manipulates. -/
def pyUpper (c : Char) : Char :=
  if c = 'á' then 'Á' else if c = 'é' then 'É' else if c = 'í' then 'Í'
  else if c = 'ó' then 'Ó' else if c = 'ú' then 'Ú' else if c = 'ñ' then 'Ñ'
  else Char.toUpper c

/-- Letter test as Python str.title uses it, over the relevant alphabet. -/
def pyIsAlpha (c : Char) : Bool :=
  c.isAlpha || c = 'á' || c = 'é' || c = 'í' || c = 'ó' || c = 'ú' || c = 'ñ'
    || c = 'Á' || c = 'É' || c = 'Í' || c = 'Ó' || c = 'Ú' || c = 'Ñ'

/-- Python str.strip on a character list: whitespace removed from both ends. -/
def stripL (l : List Char) : List Char :=
  ((l.dropWhile pyIsSpace).reverse.dropWhile pyIsSpace).reverse

/-- Python str.lower on a character list. -/
def pyLowerStr (l : List Char) : List Char :=
  l.map pyLower

/-- Python str.title on a character list: the first letter of every
maximal letter run is uppercased, the remaining letters lowercased;
`prev` says whether the previous character was a letter. -/
def pyTitleGo (prev : Bool) : List Char → List Char
  | [] => []
  | c :: rest =>
    (if pyIsAlpha c then (if prev then pyLower c else pyUpper c) else c)
      :: pyTitleGo (pyIsAlpha c) rest

/-- Python str.title on a character list. -/
def pyTitle (l : List Char) : List Char :=
  pyTitleGo false l

/-- Python substring membership (the `in` operator on str):
`contiene needle hay` holds when `needle` occurs contiguously in `hay`. -/
def contiene (needle : List Char) : List Char → Bool
  | [] => needle.isPrefixOf []
  | c :: rest => needle.isPrefixOf (c :: rest) || contiene needle rest

/-- Last character is the question mark: Python str.endswith applied to
the one-character suffix used by the source. -/
def terminaEnPregunta (l : List Char) : Bool :=
  l.getLast? = some '?'

/-- Regular expressions as the source patterns use them: character
classes with greedy or lazy counted repetition, sequencing, prioritized
alternation, a capturing group, and the end-of-string anchor. -/
inductive RE where
  | eps
  | cls (p : Char → Bool)
  | seq (a b : RE)
  | alt (a b : RE)
  | rep (p : Char → Bool) (lo : Nat) (hi : Option Nat) (lazy : Bool)
  | group (a : RE)
  | eos

/-- Remainders of `s` after consuming a run of characters satisfying
`p`: position `i` of the returned list is the remainder after consuming
`i` characters, so the list is ordered shortest-consumed first. -/
def repRems (p : Char → Bool) : List Char → List (List Char)
  | [] => [[]]
  | c :: rest => (c :: rest) :: (if p c then repRems p rest else [])

/-- All ways a regex can match a prefix of `s`, in Python backtracking
priority order; an outcome is the remaining suffix paired with the
capture of group 1 when the match went through a group. -/
def mRE : RE → List Char → List (List Char × Option (List Char))
  | .eps, s => [(s, none)]
  | .cls _, [] => []
  | .cls p, c :: rest => if p c then [(rest, none)] else []
  | .seq a b, s =>
    (mRE a s).flatMap (fun ra => (mRE b ra.1).map (fun rb => (rb.1, ra.2 <|> rb.2)))
  | .alt a b, s => mRE a s ++ mRE b s
  | .rep p lo hi lazy, s =>
    let cands := ((repRems p s).enum.filter
      (fun ir => lo ≤ ir.1 && (match hi with | none => true | some h => ir.1 ≤ h))).map
      (fun ir => (ir.2, (none : Option (List Char))))
    if lazy then cands else cands.reverse
  | .group a, s => (mRE a s).map (fun r => (r.1, some (s.take (s.length - r.1.length))))
  | .eos, s => if s.isEmpty then [(s, none)] else []

/-- Span and group capture of a successful search, mirroring the match
object methods start, end and group the source uses. -/
structure Hallazgo where
  inicio : Nat
  fin : Nat
  grupo : Option (List Char)
deriving DecidableEq

/-- Scan start positions left to right; at the first position where the
pattern matches, return its span and capture, like Python re.search. -/
def buscaDesde (r : RE) : List Char → Nat → Option Hallazgo
  | [], i =>
    match mRE r [] with
    | (_, cap) :: _ => some ⟨i, i, cap⟩
    | [] => none
  | c :: rest, i =>
    match mRE r (c :: rest) with
    | (rem, cap) :: _ => some ⟨i, i + ((c :: rest).length - rem.length), cap⟩
    | [] => buscaDesde r rest (i + 1)

/-- Python re.search over the whole string. -/
def reSearch (r : RE) (s : List Char) : Option Hallazgo :=
  buscaDesde r s 0

/-- Semantic absence of a pattern from a string: no suffix admits a
match, stated independently of the scanning order of the engine. -/
def patternAbsent (r : RE) (s : List Char) : Prop :=
  ∀ i, mRE r (s.drop i) = []

/-- Case-sensitive literal character sequence inside a pattern. -/
def lit (s : String) : RE :=
  (s.toList.map (fun ch => RE.cls (fun c => c = ch))).foldr RE.seq RE.eps

/-- Literal character sequence under re.IGNORECASE. -/
def litI (s : String) : RE :=
  (s.toList.map (fun ch => RE.cls (fun c => pyLower c = pyLower ch))).foldr RE.seq RE.eps

/-- Sequencing of a list of pattern pieces. -/
def seqs (l : List RE) : RE :=
  l.foldr RE.seq RE.eps

/-- Pattern piece for backslash-s star. -/
def ws0 : RE := RE.rep pyIsSpace 0 none false

/-- Pattern piece for backslash-s plus. -/
def ws1 : RE := RE.rep pyIsSpace 1 none false

/-- Optional greedy piece, as a question mark after a pattern group. -/
def opc (r : RE) : RE := RE.alt r RE.eps

/-- Character class matching anything: bracket backslash-s backslash-S,
and the dot under re.DOTALL. -/
def cualquier : Char → Bool := fun _ => true

/-- Class of the upper-case Spanish letters and whitespace, bracket
A-Z Á É Í Ó Ú Ñ backslash-s, case sensitive (name pattern, line 86). -/
def mayusEsp (c : Char) : Bool :=
  c.isUpper || c = 'Á' || c = 'É' || c = 'Í' || c = 'Ó' || c = 'Ú' || c = 'Ñ'
    || pyIsSpace c

/-- The same class under re.IGNORECASE (id-number pattern, line 92),
where each letter also matches its other case. -/
def mayusEspCI (c : Char) : Bool :=
  pyIsAlpha c || pyIsSpace c

/-- Class bracket i í under re.IGNORECASE. -/
def iAccCI (c : Char) : Bool :=
  pyLower c = 'i' || pyLower c = 'í'

/-- Class bracket colon hyphen. -/
def colonGuion (c : Char) : Bool :=
  c = ':' || c = '-'

/-- Class bracket a-z A-Z ñ under re.IGNORECASE (month letters). -/
def letraMesCI (c : Char) : Bool :=
  c.isAlpha || c = 'ñ' || c = 'Ñ'

/-- Class bracket 0-9 colon dot (hour digits). -/
def cifraHora (c : Char) : Bool :=
  c.isDigit || c = ':' || c = '.'

/-- Class bracket 0-9 hyphen slash (incident date). -/
def cifraFecha (c : Char) : Bool :=
  c.isDigit || c = '-' || c = '/'

/-- Class bracket colon backslash-s. -/
def colonEsp (c : Char) : Bool :=
  c = ':' || pyIsSpace c

/-- Optional literal dot inside the am pm alternates. -/
def puntoOpc : RE := RE.rep (fun c => c = '.') 0 (some 1) false

/-- Pattern of src/main.py line 86, case sensitive:
Señor backslash-s star backslash-open-paren a backslash-close-paren
backslash-s star, optional colon or hyphen, backslash-s star, then group 1
one-or-more of the upper-case class. -/
def nombreRe : RE :=
  seqs [lit "Señor", ws0, lit "(a)", ws0, RE.rep colonGuion 0 (some 1) false,
    ws0, RE.group (RE.rep mayusEsp 1 none false)]

/-- Pattern of src/main.py lines 91-95, re.IGNORECASE: the line 86 prelude,
the letter run, backslash-s plus, then group 1 of five to fifteen digits. -/
def cedulaRe : RE :=
  seqs [litI "Señor", ws0, litI "(a)", ws0, RE.rep colonGuion 0 (some 1) false,
    ws0, RE.rep mayusEspCI 1 none false, ws1,
    RE.group (RE.rep Char.isDigit 5 (some 15) false)]

/-- The am or pm alternate of the citation-date pattern, each letter
followed by an optional dot. -/
def ampmRe : RE :=
  RE.alt (seqs [litI "a", puntoOpc, litI "m", puntoOpc])
    (seqs [litI "p", puntoOpc, litI "m", puntoOpc])

/-- Pattern of src/main.py lines 100-104, re.IGNORECASE: el, día, then
group 1 holding day, month name, optional de, four-digit year, a las,
hour digits and an optional am or pm marker. -/
def fechaCitacionRe : RE :=
  seqs [litI "el", ws1, litI "d", RE.cls iAccCI, litI "a", ws1,
    RE.group (seqs [RE.rep Char.isDigit 1 (some 2) false, ws1, litI "de", ws1,
      RE.rep letraMesCI 1 none false, ws1, opc (seqs [litI "de", ws1]),
      RE.rep Char.isDigit 4 (some 4) false, ws1, litI "a", ws1, litI "las", ws1,
      RE.rep cifraHora 1 none false, ws0, opc ampmRe])]

/-- Pattern of src/main.py line 108, re.IGNORECASE: Cometidos el día,
a colon-or-space run, then group 1 of digits, hyphens and slashes. -/
def fechaHechoRe : RE :=
  seqs [litI "Cometidos", ws1, litI "el", ws1, litI "d", RE.cls iAccCI, litI "a",
    RE.rep colonEsp 1 none false, RE.group (RE.rep cifraFecha 1 none false)]

/-- Pattern of src/main.py lines 112-116, re.IGNORECASE with re.DOTALL:
compañía, optional colon or hyphen, spaces, a lazy any-character group,
then Cometidos el día. -/
def detalleRe : RE :=
  seqs [litI "compañ", RE.cls iAccCI, litI "a", RE.rep colonGuion 0 (some 1) false,
    ws0, RE.group (RE.rep cualquier 1 none true),
    litI "Cometidos", ws1, litI "el", ws1, litI "d", RE.cls iAccCI, litI "a"]

/-- Pattern of src/main.py lines 120-124, re.IGNORECASE: Tipo de Falta,
optional colon or hyphen, spaces, a lazy letters-and-space group, stopped
by a dot, a comma, las conductas, según, or the end of the string. -/
def tipoFaltaRe : RE :=
  seqs [litI "Tipo", ws1, litI "de", ws1, litI "Falta",
    RE.rep colonGuion 0 (some 1) false, ws0,
    RE.group (RE.rep mayusEspCI 1 none true),
    RE.alt (lit ".") (RE.alt (lit ",")
      (RE.alt (seqs [litI "las", ws1, litI "conductas"])
        (RE.alt (litI "según") RE.eos)))]

/-- Opening delimiter of the articles block, src/main.py lines 53-57,
re.IGNORECASE: the fixed sentence up to Falta Grave, a lazy any-character
run, empresa, then a greedy run of colons. -/
def inicioArticulosRe : RE :=
  seqs [litI "Las", ws1, litI "conductas", ws1, litI "que", ws1, litI "se", ws1,
    litI "le", ws1, litI "imputan", ws1, litI "se", ws1, litI "han", ws1,
    litI "calificado", ws1, litI "provisionalmente", ws1, litI "como", ws1,
    litI "Falta", ws1, litI "Grave", RE.rep cualquier 0 none true,
    litI "empresa", RE.rep (fun c => c = ':') 0 none false]

/-- Closing delimiter of the articles block, src/main.py lines 58-62,
re.IGNORECASE. -/
def finArticulosRe : RE :=
  seqs [litI "Se", ws1, litI "le", ws1, litI "informa", ws1, litI "al", ws1,
    litI "trabajador", ws1, litI "sobre", ws1, litI "la", ws1,
    litI "oportunidad", ws1, litI "de", ws1, litI "presentar"]

/-- Normalization shared by the extractors (src/main.py lines 50 and 83):
replace carriage returns and newlines by spaces, then strip. -/
def normalizaTexto (texto : String) : List Char :=
  stripL ((texto.toList.map (fun c => if c = '\r' then ' ' else c)).map
    (fun c => if c = '\n' then ' ' else c))

/-- The re.sub of src/main.py line 71: every maximal whitespace run of
length at least two is replaced by one space. -/
def colapsa2Go (enRacha : Bool) : List Char → List Char
  | [] => []
  | c :: rest =>
    if pyIsSpace c then
      if enRacha then colapsa2Go true rest
      else
        match rest.head? with
        | some d => if pyIsSpace d then ' ' :: colapsa2Go true rest
            else c :: colapsa2Go false rest
        | none => c :: colapsa2Go false rest
    else c :: colapsa2Go false rest

/-- The re.sub of src/main.py line 71 over a whole string: a whitespace
run of length at least two becomes one space, emitted at the head of the
run; `enRacha` records that the scanner is inside such a run. A run of
length one is kept as it is. -/
def colapsa2 (l : List Char) : List Char :=
  colapsa2Go false l

/-- Length of a match of the pattern Artículo backslash-s plus
backslash-d plus (re.IGNORECASE) at the head of `l`, if any
(src/main.py line 72). -/
def matchArtLen (l : List Char) : Option Nat :=
  if (l.take 8).map pyLower = ['a', 'r', 't', 'í', 'c', 'u', 'l', 'o'] then
    let r1 := l.drop 8
    let nws := (r1.takeWhile pyIsSpace).length
    if nws = 0 then none
    else
      let nd := ((r1.drop nws).takeWhile Char.isDigit).length
      if nd = 0 then none else some (8 + nws + nd)
  else none

def artSubF : Nat → List Char → List Char
  | 0, l => l
  | _, [] => []
  | fuel + 1, c :: rest =>
    match matchArtLen (c :: rest) with
    | some n => '\n' :: ((c :: rest).take n ++ artSubF fuel ((c :: rest).drop n))
    | none => c :: artSubF fuel rest

/-- The re.sub of src/main.py line 72: a newline is inserted before every
non-overlapping match of Artículo followed by a number. The fuel starts
at the string length; every step drops at least one character (a match
length is positive, see matchArtLen_pos), so the zero-fuel arm is never
reached. -/
def artSub (l : List Char) : List Char :=
  artSubF l.length l

/-- Cleanup applied to the text between the two delimiters, src/main.py
lines 68-73: strip, collapse double spaces, break before each article,
strip again. -/
def bloqueArticulos (t : List Char) (desde hasta : Nat) : List Char :=
  stripL (artSub (colapsa2 (stripL ((t.drop desde).take (hasta - desde)))))

/-- The function extraer_articulos_completos of src/main.py lines 44-75. -/
def extraer_articulos_completos (texto : String) : String :=
  let t := normalizaTexto texto
  match reSearch inicioArticulosRe t, reSearch finArticulosRe t with
  | some hIni, some hFin =>
    let bloque := bloqueArticulos t hIni.fin hFin.inicio
    if 20 < bloque.length then String.mk bloque
    else "No se encontraron artículos válidos."
  | _, _ => "No se encontraron los artículos en la citación."

/-- The record built at src/main.py lines 130-138: exactly the seven
string fields of the returned dict, in source order. -/
structure DatosCitacion where
  nombre : String
  cedula : String
  fecha_citacion : String
  fecha_hecho : String
  detalle : String
  tipo_falta : String
  articulos : String
deriving DecidableEq

/-- The function extraer_datos_citacion of src/main.py lines 79-138.
Every field search follows the shape of the source: the captured group,
post-processed, when the search succeeds, and the literal sentinel
otherwise. The inner none arms are unreachable because every pattern
carries a group; they repeat the sentinel. -/
def extraer_datos_citacion (texto : String) : DatosCitacion :=
  let t := normalizaTexto texto
  let nombre := match reSearch nombreRe t with
    | some h =>
      match h.grupo with
      | some g => String.mk (pyTitle (stripL g))
      | none => "No encontrado"
    | none => "No encontrado"
  let cedula := match reSearch cedulaRe t with
    | some h =>
      match h.grupo with
      | some g => String.mk (stripL g)
      | none => "No encontrada"
    | none => "No encontrada"
  let fechaCitacion := match reSearch fechaCitacionRe t with
    | some h =>
      match h.grupo with
      | some g => String.mk (stripL g)
      | none => "No encontrada"
    | none => "No encontrada"
  let fechaHecho := match reSearch fechaHechoRe t with
    | some h =>
      match h.grupo with
      | some g => String.mk (stripL g)
      | none => "No encontrada"
    | none => "No encontrada"
  let detalle := match reSearch detalleRe t with
    | some h =>
      match h.grupo with
      | some g => String.mk (stripL g)
      | none => "No se encontró detalle"
    | none => "No se encontró detalle"
  let tipoFalta := match reSearch tipoFaltaRe t with
    | some h =>
      match h.grupo with
      | some g => String.mk (pyTitle (stripL g))
      | none => "No encontrada"
    | none => "No encontrada"
  let articulos := extraer_articulos_completos texto
  ⟨nombre, cedula, fechaCitacion, fechaHecho, detalle, tipoFalta, articulos⟩

/-- Question list of the procedimiento branch, src/main.py lines 148-154. -/
def preguntasProcedimiento : List String :=
  ["¿Cuánto tiempo lleva en la compañía y en el cargo?",
   "¿Sabe usted que debe actuar con diligencia y cuidado para asegurar la calidad y eficiencia en su trabajo, según el artículo 54 del Reglamento Interno?",
   "¿Conoce el Reglamento Interno de Trabajo?",
   "¿Considera que cometió una falta?",
   "¿Quiere agregar algo más a la presente diligencia?"]

/-- Question list of the ausencia branch, src/main.py lines 156-165. -/
def preguntasAusencia : List String :=
  ["¿Cuánto tiempo lleva en la compañía y en el cargo?",
   "¿Por qué no asistió a trabajar los días mencionados?",
   "¿Tiene algún soporte que justifique sus ausencias?",
   "¿Sabe usted que se les prohíbe a los trabajadores faltar al turno o jornada de trabajo sin justa causa de impedimento o sin permiso de la Empresa?",
   "¿Sabe usted que es una falta grave la falta parcial o total en la jornada de la mañana o de la tarde para el personal administrativo, o en el turno correspondiente para el personal operativo, sin excusa suficiente?",
   "¿Conoce el Reglamento Interno de Trabajo?",
   "¿Considera que cometió una falta?",
   "¿Quiere agregar algo más a la presente?"]

/-- Question list of the EPP branch, src/main.py lines 167-176. -/
def preguntasEpp : List String :=
  ["¿Cuánto tiempo lleva en la compañía y en el cargo?",
   "¿Usted se encontraba haciendo caso omiso del uso de EPPS?",
   "¿Por qué motivo no estaba usando los EPPS?",
   "¿Sabe usted que es prohibido “Hacer caso omiso en el uso de los elementos de protección personal y ejecutar cualquier acto inseguro que ponga en peligro su seguridad”?",
   "¿Usted es consciente que pudo tener una afectación más grave ya que se trabaja en AGP con vidrio y maquinaria y el uso de EPPs es esencial para desarrollar las labores en AGP?",
   "¿Conoce el Reglamento Interno de Trabajo?",
   "¿Considera que cometió una falta?",
   "¿Quiere agregar algo más a la presente?"]

/-- Question list of the celular branch, src/main.py lines 178-188. -/
def preguntasCelular : List String :=
  ["¿Cuánto tiempo lleva en la compañía y en el cargo?",
   "¿Confirme o niegue si tenía permiso para utilizar el celular en el área de trabajo?",
   "¿En ocasiones anteriores ha hecho uso del celular en su puesto de trabajo?",
   "¿Usted conoce la política de celulares estipulada por la compañía?",
   "De acuerdo con la política de celulares, si existe alguna urgencia usted debe solicitar permiso a su jefe inmediato para utilizar el celular, ¿usted solicitó o informó a su jefe inmediato sobre el uso de su celular?",
   "¿Usted es consciente que utilizar el celular en el área de trabajo es un riesgo físico para usted y sus compañeros?",
   "¿Conoce el Reglamento Interno de Trabajo?",
   "¿Considera que cometió una falta?",
   "¿Quiere agregar algo más a la presente diligencia?"]

/-- Question list of the retardo branch, src/main.py lines 190-200. -/
def preguntasRetardo : List String :=
  ["¿Cuánto tiempo lleva en la compañía y en el cargo?",
   "¿Confirma usted que se presentó con un retardo en su hora de llegada de xxxx minutos el día xxxx?",
   "¿Tenía usted permiso para presentarse con un retardo de xxxx minutos el día xxxx?",
   "¿Tiene algún soporte que justifique el retraso de xxxx minutos en su hora de llegada el día xxxx?",
   "¿Conoce el Reglamento Interno de Trabajo?",
   "¿Sabe usted que presentarse con un retraso puede ser considerado una falta grave?",
   "¿Sabe usted que está prohibido presentarse al puesto de trabajo con un retardo de hasta xxx minutos después de iniciada la jornada laboral?",
   "¿Considera que cometió una falta?",
   "¿Quiere agregar algo más a la presente?"]

/-- Question list of the daño or herramienta or equipo branch, src/main.py
lines 202-211. -/
def preguntasDanio : List String :=
  ["¿Cuánto tiempo lleva en la compañía y en el cargo?",
   "¿Puede explicar cómo ocurrió el daño del equipo o herramienta?",
   "¿Estaba siguiendo el procedimiento adecuado al momento del daño?",
   "¿Había reportado algún desperfecto o falla previa?",
   "¿Conoce el Reglamento Interno de Trabajo?",
   "¿Sabe que debe cuidar y utilizar adecuadamente las herramientas e instalaciones de la empresa?",
   "¿Considera que cometió una falta?",
   "¿Quiere agregar algo más a la presente diligencia?"]

/-- Question list of the default branch, src/main.py lines 213-220. -/
def preguntasOtros : List String :=
  ["¿Cuánto tiempo lleva en la compañía y en el cargo?",
   "Describa brevemente los hechos que dieron lugar a esta diligencia.",
   "¿Tenía conocimiento de las normas aplicables a esta situación?",
   "¿Conoce el Reglamento Interno de Trabajo?",
   "¿Considera que cometió una falta?",
   "¿Quiere agregar algo más a la presente diligencia?"]

/-- The function preguntas_base_por_tipo of src/main.py lines 144-220:
normalize the offense type, then take the first branch whose keyword
occurs in it, defaulting to the otros list. -/
def preguntas_base_por_tipo (tipo : String) : List String :=
  let t := pyLowerStr (stripL tipo.toList)
  if contiene "procedimiento".toList t then preguntasProcedimiento
  else if contiene "ausencia".toList t then preguntasAusencia
  else if contiene "epp".toList t || contiene "protección".toList t then preguntasEpp
  else if contiene "celular".toList t then preguntasCelular
  else if contiene "retardo".toList t || contiene "tardanza".toList t then preguntasRetardo
  else if contiene "daño".toList t || contiene "herramienta".toList t
    || contiene "equipo".toList t then preguntasDanio
  else preguntasOtros

/-- The seven classification outcomes of preguntas_base_por_tipo: the six
keyword branches and the default. -/
inductive CategoriaFalta where
  | procedimiento
  | ausencia
  | epp
  | celular
  | retardo
  | danio
  | otros
deriving DecidableEq

/-- The fixed question list belonging to each branch. -/
def preguntasCategoria : CategoriaFalta → List String
  | .procedimiento => preguntasProcedimiento
  | .ausencia => preguntasAusencia
  | .epp => preguntasEpp
  | .celular => preguntasCelular
  | .retardo => preguntasRetardo
  | .danio => preguntasDanio
  | .otros => preguntasOtros

/-- Branch guard: the procedimiento keyword occurs in the normalized type. -/
def gProc (tipo : String) : Bool :=
  contiene "procedimiento".toList (pyLowerStr (stripL tipo.toList))

/-- Branch guard: the ausencia keyword occurs in the normalized type. -/
def gAus (tipo : String) : Bool :=
  contiene "ausencia".toList (pyLowerStr (stripL tipo.toList))

/-- Branch guard: the epp or protección keyword occurs. -/
def gEpp (tipo : String) : Bool :=
  contiene "epp".toList (pyLowerStr (stripL tipo.toList))
    || contiene "protección".toList (pyLowerStr (stripL tipo.toList))

/-- Branch guard: the celular keyword occurs. -/
def gCel (tipo : String) : Bool :=
  contiene "celular".toList (pyLowerStr (stripL tipo.toList))

/-- Branch guard: the retardo or tardanza keyword occurs. -/
def gRet (tipo : String) : Bool :=
  contiene "retardo".toList (pyLowerStr (stripL tipo.toList))
    || contiene "tardanza".toList (pyLowerStr (stripL tipo.toList))

/-- Branch guard: the daño, herramienta or equipo keyword occurs. -/
def gDan (tipo : String) : Bool :=
  contiene "daño".toList (pyLowerStr (stripL tipo.toList))
    || contiene "herramienta".toList (pyLowerStr (stripL tipo.toList))
    || contiene "equipo".toList (pyLowerStr (stripL tipo.toList))

/-- A category is selected for a type exactly when its guard holds and no
earlier guard in the source if-elif chain does. -/
def guardaCategoria (tipo : String) : CategoriaFalta → Prop
  | .procedimiento => gProc tipo = true
  | .ausencia => gProc tipo = false ∧ gAus tipo = true
  | .epp => gProc tipo = false ∧ gAus tipo = false ∧ gEpp tipo = true
  | .celular => gProc tipo = false ∧ gAus tipo = false ∧ gEpp tipo = false
      ∧ gCel tipo = true
  | .retardo => gProc tipo = false ∧ gAus tipo = false ∧ gEpp tipo = false
      ∧ gCel tipo = false ∧ gRet tipo = true
  | .danio => gProc tipo = false ∧ gAus tipo = false ∧ gEpp tipo = false
      ∧ gCel tipo = false ∧ gRet tipo = false ∧ gDan tipo = true
  | .otros => gProc tipo = false ∧ gAus tipo = false ∧ gEpp tipo = false
      ∧ gCel tipo = false ∧ gRet tipo = false ∧ gDan tipo = false

/-- The re.sub of src/main.py line 37: every maximal whitespace run is
replaced by one space. A whitespace character whose successor is also
whitespace is dropped; the last character of each run becomes the one
space standing for the run. -/
def colapsaWs : List Char → List Char
  | [] => []
  | [c] => if pyIsSpace c then [' '] else [c]
  | a :: b :: rest =>
    if pyIsSpace a && pyIsSpace b then colapsaWs (b :: rest)
    else (if pyIsSpace a then ' ' else a) :: colapsaWs (b :: rest)

/-- The function leer_texto_pdf of src/main.py lines 30-41. The pdfplumber
collaborator is an explicit argument: an exception while opening or
reading, or the per-page results of extract_text, where a page may yield
no text. Concatenating such a missing text raises inside the try block,
so it also lands in the except branch returning the empty string. -/
def leer_texto_pdf (lectura : Except Unit (List (Option String))) : String :=
  match lectura with
  | .error _ => ""
  | .ok paginas =>
    if paginas.any (fun p => p.isNone) then ""
    else
      let texto := String.join (paginas.map (fun p => p.getD "" ++ "\n"))
      String.mk (stripL (colapsaWs texto.toList))

/-- Separator class of the re.split at src/main.py line 259: newline,
bullet, or hyphen. -/
def esSeparador (c : Char) : Bool :=
  c = '\n' || c = '•' || c = '-'

/-- The re.split of src/main.py line 259: the string is cut at every
separator character together with the whitespace run following it. The
flag `saltando` records that the scanner sits inside the whitespace run
following a separator, which the separator match consumes. -/
def reSplitSepGo (saltando : Bool) : List Char → List (List Char)
  | [] => [[]]
  | c :: rest =>
    if saltando && pyIsSpace c then
      reSplitSepGo true rest
    else if esSeparador c then
      [] :: reSplitSepGo true rest
    else
      match reSplitSepGo false rest with
      | [] => [[c]]
      | pieza :: resto => (c :: pieza) :: resto

/-- The re.split of src/main.py line 259 over a whole string. -/
def reSplitSep (l : List Char) : List (List Char) :=
  reSplitSepGo false l

/-- The re.sub of src/main.py line 260: one leading run of digits
followed by a dot and optional whitespace is removed, if present. -/
def quitaNumeracion (l : List Char) : List Char :=
  let ds := l.takeWhile Char.isDigit
  if ds.length = 0 then l
  else
    match l.drop ds.length with
    | '.' :: rest => rest.dropWhile pyIsSpace
    | _ => l

/-- The re.findall of src/main.py line 264: leftmost non-overlapping
matches of an opening question mark, one or more characters other than
the closing question mark, and the closing question mark. -/
def buscaInterrogantesF : Nat → List Char → List (List Char)
  | 0, _ => []
  | _, [] => []
  | fuel + 1, c :: rest =>
    if c = '¿' then
      let cuerpo := rest.takeWhile (fun d => d ≠ '?')
      match rest.drop cuerpo.length with
      | '?' :: tras =>
        if cuerpo.length = 0 then buscaInterrogantesF fuel rest
        else ('¿' :: cuerpo ++ ['?']) :: buscaInterrogantesF fuel tras
      | _ => buscaInterrogantesF fuel rest
    else
      buscaInterrogantesF fuel rest

/-- The re.findall of src/main.py line 264 over a whole string. The fuel
starts at the string length; every recursive step drops at least one
character, so the zero-fuel arm is never reached. -/
def buscaInterrogantes (l : List Char) : List (List Char) :=
  buscaInterrogantesF l.length l

/-- The marker inserted at src/main.py line 269 when the model text
yields no usable questions. -/
def marcadorSinPreguntas : String :=
  "(La IA no generó preguntas adicionales correctamente.)"

/-- Post-processing of the model response text, src/main.py lines
255-269: strip the response, split it into lines, drop short ones and
their numbering, fall back to the inverted-question-mark matches when
fewer than three lines survive, keep those ending in a question mark,
strip them, truncate to `maxAi`, and fall back to the marker when none
remain. -/
def preguntasIA (texto : String) (maxAi : Nat) : List (List Char) :=
  let rawText := stripL texto.toList
  let lineas := reSplitSep rawText
  let aiQs := (lineas.filter (fun l => 10 < (stripL l).length)).map
    (fun l => stripL (quitaNumeracion l))
  let aiQs := if aiQs.length < 3 then buscaInterrogantes rawText else aiQs
  let aiQs := ((aiQs.filter terminaEnPregunta).map stripL).take maxAi
  if aiQs.isEmpty then [marcadorSinPreguntas.toList] else aiQs

/-- The function generar_preguntas_gemini of src/main.py lines 224-275.
The ambient credential and the generative model are explicit arguments:
`apiKey` is the module-level API_KEY, and `respuesta` the outcome of
model.generate_content, an exception or the response text. The prompt the
source builds does not influence the returned value and is not modelled.
The source defaults `maxAi` to five; callers pass it explicitly here. -/
def generar_preguntas_gemini (apiKey : Option String) (parsed : DatosCitacion)
    (respuesta : Except Unit String) (maxAi : Nat) : List String :=
  let base := preguntas_base_por_tipo parsed.tipo_falta
  match apiKey with
  | none => base
  | some _ =>
    match respuesta with
    | .error _ => base
    | .ok texto => base ++ (preguntasIA texto maxAi).map String.mk

/-- Observable effect of generar_acta: the output directory it ensures,
the output file name, the rendering context handed to the template, and
the files saved. -/
structure ActaGenerada where
  carpeta : String
  archivo : String
  contexto : List (String × String)
  guardados : List String
deriving DecidableEq

/-- The question block built at src/main.py lines 283-289. -/
def bloquePreguntas (preguntas : List String) : String :=
  String.join (preguntas.enum.map (fun ip =>
    "PREGUNTA:\n" ++ toString (ip.1 + 1) ++ ". " ++ ip.2 ++ "\nRESPUESTA:\n\n\n"
      ++ String.mk (List.replicate 80 '_') ++ "\n\n"))

/-- The function generar_acta of src/main.py lines 278-306. The docxtpl
template object is external; the embedding records the context passed to
doc.render, the fixed output directory ActasGeneradas, and the single
file handed to doc.save, whose name derives from the extracted name with
spaces replaced by underscores. The timestamp is the ambient clock. -/
def generar_acta (parsed : DatosCitacion) (preguntas : List String)
    (ahora : String) : ActaGenerada :=
  let contexto := [("nombre", parsed.nombre),
    ("fecha_citacion", parsed.fecha_citacion),
    ("fecha_hecho", parsed.fecha_hecho),
    ("detalle", parsed.detalle),
    ("articulos", parsed.articulos),
    ("preguntas", bloquePreguntas preguntas),
    ("fecha_generacion", ahora)]
  let archivo := "Acta_" ++ String.mk (parsed.nombre.toList.map
    (fun c => if c = ' ' then '_' else c)) ++ ".docx"
  { carpeta := "ActasGeneradas", archivo := archivo, contexto := contexto,
    guardados := ["ActasGeneradas/" ++ archivo] }

/-- Outcome of one run of main, src/main.py lines 309-328. -/
inductive ResultadoMain where
  | sinPdfs
  | textoInsuficiente
  | generada (acta : ActaGenerada)
deriving DecidableEq

/-- The function main of src/main.py lines 309-328, with the external
world as arguments: the pdf listing of the Citaciones folder, the
pdfplumber reading of the first file, the ambient credential, the model
response, and the clock. -/
def mainRun (archivos : List String) (lectura : Except Unit (List (Option String)))
    (apiKey : Option String) (respuesta : Except Unit String) (ahora : String) :
    ResultadoMain :=
  if archivos.isEmpty then ResultadoMain.sinPdfs
  else
    let texto := leer_texto_pdf lectura
    if texto.length < 50 then ResultadoMain.textoInsuficiente
    else
      let datos := extraer_datos_citacion texto
      let preguntas := generar_preguntas_gemini apiKey datos respuesta 5
      ResultadoMain.generada (generar_acta datos preguntas ahora)

/-- Template shape for the rendering collaborator: literal runs and
placeholders keyed like the context entries. -/
inductive PlantillaItem where
  | texto (s : String)
  | campo (clave : String)
deriving DecidableEq

/-- Modelled from the spec: the document-template-rendering capability of
spec section 6 (template plus key-value context to a document), provided
by the external docxtpl library, which is not part of src/. Rendering
replaces each placeholder by the context value for its key, an absent key
rendering empty, and leaves literal runs unchanged. -/
def renderPlantilla : List PlantillaItem → List (String × String) → String
  | [], _ => ""
  | it :: resto, ctx =>
    (match it with
     | .texto s => s
     | .campo k => ((ctx.find? (fun kv => kv.1 == k)).map (fun kv => kv.2)).getD "")
      ++ renderPlantilla resto ctx

/-- Adjacent pair admissible for the no-double-whitespace invariant. -/
def okPar (x y : Char) : Bool :=
  !(pyIsSpace x && pyIsSpace y)

/-- No two consecutive characters of the list are both whitespace. -/
def sinDobleEspacio : List Char → Bool
  | a :: b :: rest => okPar a b && sinDobleEspacio (b :: rest)
  | _ => true

/-- A known-format transcript: it carries every pattern the extractors
look for, in the layout of the AGP citation documents. -/
def citacionEjemplo : String :=
  "Señor (a): JUAN PEREZ 12345678 Se le cita el día 5 de mayo de 2025 a las 8:00 a.m. por hechos contra la compañía: llego tarde sin aviso previo Cometidos el día: 2025-05-01 Tipo de Falta: Retardo. Las conductas que se le imputan se han calificado provisionalmente como Falta Grave contra la empresa: Articulo 54 del reglamento interno de trabajo Se le informa al trabajador sobre la oportunidad de presentar sus descargos"

theorem char_eq_iff_toNat {a b : Char} : a = b ↔ a.toNat = b.toNat := by
  constructor
  · intro h; rw [h]
  · intro h
    have h2 := congrArg Char.ofNat h
    rwa [Char.ofNat_toNat, Char.ofNat_toNat] at h2

theorem toNat_charOfNat_valid {n : Nat} (h : n.isValidChar) :
    (Char.ofNat n).toNat = n := by
  rw [Char.ofNat, dif_pos h]
  rfl

theorem toLower_toNat_of_range {c : Char} (h : 65 ≤ c.toNat ∧ c.toNat ≤ 90) :
    (Char.toLower c).toNat = c.toNat + 32 := by
  rw [Char.toLower, if_pos h]
  exact toNat_charOfNat_valid (Or.inl (by omega))

theorem toLower_eq_self_of_not_range {c : Char}
    (h : ¬(65 ≤ c.toNat ∧ c.toNat ≤ 90)) : Char.toLower c = c := by
  rw [Char.toLower, if_neg h]

theorem pyIsSpace_false_of_toNat {c : Char} (h : 33 ≤ c.toNat) :
    pyIsSpace c = false := by
  simp only [pyIsSpace, Bool.or_eq_false_iff, decide_eq_false_iff_not]
  refine ⟨⟨⟨⟨⟨?_, ?_⟩, ?_⟩, ?_⟩, ?_⟩, ?_⟩ <;>
    · intro he
      rw [char_eq_iff_toNat] at he
      simp at he
      omega

theorem pyLower_pyLower (c : Char) : pyLower (pyLower c) = pyLower c := by
  by_cases h1 : c = 'Á'
  · subst h1; decide
  by_cases h2 : c = 'É'
  · subst h2; decide
  by_cases h3 : c = 'Í'
  · subst h3; decide
  by_cases h4 : c = 'Ó'
  · subst h4; decide
  by_cases h5 : c = 'Ú'
  · subst h5; decide
  by_cases h6 : c = 'Ñ'
  · subst h6; decide
  have hc : pyLower c = Char.toLower c := by
    rw [pyLower, if_neg h1, if_neg h2, if_neg h3, if_neg h4, if_neg h5, if_neg h6]
  rw [hc]
  by_cases hr : 65 ≤ c.toNat ∧ c.toNat ≤ 90
  · have htn : (Char.toLower c).toNat = c.toNat + 32 := toLower_toNat_of_range hr
    rw [pyLower]
    rw [if_neg (by rw [char_eq_iff_toNat]; simp; omega)]
    rw [if_neg (by rw [char_eq_iff_toNat]; simp; omega)]
    rw [if_neg (by rw [char_eq_iff_toNat]; simp; omega)]
    rw [if_neg (by rw [char_eq_iff_toNat]; simp; omega)]
    rw [if_neg (by rw [char_eq_iff_toNat]; simp; omega)]
    rw [if_neg (by rw [char_eq_iff_toNat]; simp; omega)]
    exact toLower_eq_self_of_not_range (by omega)
  · rw [toLower_eq_self_of_not_range hr]
    rw [hc]
    exact toLower_eq_self_of_not_range hr

theorem pyIsSpace_pyLower (c : Char) : pyIsSpace (pyLower c) = pyIsSpace c := by
  by_cases h1 : c = 'Á'
  · subst h1; decide
  by_cases h2 : c = 'É'
  · subst h2; decide
  by_cases h3 : c = 'Í'
  · subst h3; decide
  by_cases h4 : c = 'Ó'
  · subst h4; decide
  by_cases h5 : c = 'Ú'
  · subst h5; decide
  by_cases h6 : c = 'Ñ'
  · subst h6; decide
  rw [pyLower, if_neg h1, if_neg h2, if_neg h3, if_neg h4, if_neg h5, if_neg h6]
  by_cases hr : 65 ≤ c.toNat ∧ c.toNat ≤ 90
  · have htn : (Char.toLower c).toNat = c.toNat + 32 := toLower_toNat_of_range hr
    rw [pyIsSpace_false_of_toNat (by omega), pyIsSpace_false_of_toNat (by omega)]
  · rw [toLower_eq_self_of_not_range hr]

theorem dropWhile_getLast?_eq {p : Char → Bool} {l : List Char}
    (h : l.dropWhile p ≠ []) : (l.dropWhile p).getLast? = l.getLast? := by
  induction l with
  | nil => simp at h
  | cons x xs ih =>
    by_cases hx : p x
    · rw [List.dropWhile_cons_of_pos hx] at h ⊢
      rw [ih h]
      cases xs with
      | nil => simp [List.dropWhile] at h
      | cons y ys => simp
    · rw [List.dropWhile_cons_of_neg hx]

theorem dropWhile_eq_self_of_head? {p : Char → Bool} {l : List Char}
    (h : ∀ c, l.head? = some c → p c = false) : l.dropWhile p = l := by
  cases l with
  | nil => rfl
  | cons x xs =>
    exact List.dropWhile_cons_of_neg (by simp [h x rfl])

theorem stripL_head?_not {l : List Char} {c : Char}
    (h : (stripL l).head? = some c) : pyIsSpace c = false := by
  unfold stripL at h
  rw [List.head?_reverse] at h
  have h2 := dropWhile_getLast?_eq (p := pyIsSpace)
    (l := (l.dropWhile pyIsSpace).reverse) (by intro hnil; rw [hnil] at h; simp at h)
  rw [h2] at h
  rw [List.getLast?_reverse] at h
  have h3 := List.head?_dropWhile_not pyIsSpace l
  rw [h] at h3
  exact h3

theorem stripL_getLast?_not {l : List Char} {c : Char}
    (h : (stripL l).getLast? = some c) : pyIsSpace c = false := by
  unfold stripL at h
  rw [List.getLast?_reverse] at h
  have h3 := List.head?_dropWhile_not pyIsSpace (l.dropWhile pyIsSpace).reverse
  rw [h] at h3
  exact h3

theorem stripL_eq_self_of_ends {l : List Char}
    (h1 : ∀ c, l.head? = some c → pyIsSpace c = false)
    (h2 : ∀ c, l.getLast? = some c → pyIsSpace c = false) : stripL l = l := by
  unfold stripL
  rw [dropWhile_eq_self_of_head? h1]
  rw [dropWhile_eq_self_of_head? (by
    intro c hc
    rw [List.head?_reverse] at hc
    exact h2 c hc)]
  exact List.reverse_reverse l

theorem stripL_stripL (l : List Char) : stripL (stripL l) = stripL l :=
  stripL_eq_self_of_ends (fun _ h => stripL_head?_not h)
    (fun _ h => stripL_getLast?_not h)

theorem stripL_pyLowerStr (l : List Char) :
    stripL (pyLowerStr l) = pyLowerStr (stripL l) := by
  have hp : (fun c => pyIsSpace (pyLower c)) = pyIsSpace := by
    funext c; exact pyIsSpace_pyLower c
  unfold stripL pyLowerStr
  rw [List.dropWhile_map, ← List.map_reverse, List.dropWhile_map, ← List.map_reverse]
  have : (pyIsSpace ∘ pyLower) = pyIsSpace := by
    funext c; exact pyIsSpace_pyLower c
  rw [this]

theorem pyLowerStr_pyLowerStr (l : List Char) :
    pyLowerStr (pyLowerStr l) = pyLowerStr l := by
  unfold pyLowerStr
  rw [List.map_map]
  have : (pyLower ∘ pyLower) = pyLower := by
    funext c; exact pyLower_pyLower c
  rw [this]

theorem normaTipo_idem (l : List Char) :
    pyLowerStr (stripL (pyLowerStr (stripL l))) = pyLowerStr (stripL l) := by
  rw [stripL_pyLowerStr, stripL_stripL, pyLowerStr_pyLowerStr]

theorem terminaEnPregunta_stripL {l : List Char}
    (h : terminaEnPregunta l = true) : terminaEnPregunta (stripL l) = true := by
  unfold terminaEnPregunta at h ⊢
  simp only [decide_eq_true_eq] at h ⊢
  have hu : l.dropWhile pyIsSpace ≠ [] := by
    intro hnil
    rw [List.dropWhile_eq_nil_iff] at hnil
    have hmem := List.mem_of_getLast?_eq_some h
    have := hnil _ hmem
    simp [pyIsSpace] at this
  have hlast : (l.dropWhile pyIsSpace).getLast? = some '?' := by
    rw [dropWhile_getLast?_eq hu, h]
  unfold stripL
  rw [dropWhile_eq_self_of_head? (by
    intro c hc
    rw [List.head?_reverse] at hc
    rw [hlast] at hc
    cases hc
    decide)]
  rw [List.reverse_reverse]
  exact hlast

theorem buscaDesde_eq_none_iff (r : RE) : ∀ (s : List Char) (i : Nat),
    buscaDesde r s i = none ↔ ∀ j, mRE r (s.drop j) = [] := by
  intro s
  induction s with
  | nil =>
    intro i
    unfold buscaDesde
    cases hm : mRE r [] with
    | nil => simp [List.drop_nil, hm]
    | cons x t =>
      obtain ⟨rem, cap⟩ := x
      simp only [hm]
      constructor
      · intro h; simp at h
      · intro h
        have h0 := h 0
        rw [List.drop_nil] at h0
        rw [h0] at hm
        cases hm
  | cons c rest ih =>
    intro i
    unfold buscaDesde
    cases hm : mRE r (c :: rest) with
    | cons x t =>
      obtain ⟨rem, cap⟩ := x
      simp only [hm]
      constructor
      · intro h; simp at h
      · intro h
        have h0 := h 0
        rw [List.drop_zero] at h0
        rw [h0] at hm
        cases hm
    | nil =>
      simp only [hm]
      rw [ih (i + 1)]
      constructor
      · intro h j
        cases j with
        | zero => rw [List.drop_zero]; exact hm
        | succ k => rw [List.drop_succ_cons]; exact h k
      · intro h j
        have := h (j + 1)
        rwa [List.drop_succ_cons] at this

theorem reSearch_eq_none_iff (r : RE) (s : List Char) :
    reSearch r s = none ↔ patternAbsent r s :=
  buscaDesde_eq_none_iff r s 0

theorem matchArtLen_pos {l : List Char} {n : Nat} (h : matchArtLen l = some n) :
    1 ≤ n := by
  unfold matchArtLen at h
  split at h
  · dsimp only at h
    split at h
    · cases h
    · split at h
      · cases h
      · cases h
        omega
  · cases h

theorem preguntas_base_como_cadena (tipo : String) : preguntas_base_por_tipo tipo =
    if gProc tipo then preguntasProcedimiento
    else if gAus tipo then preguntasAusencia
    else if gEpp tipo then preguntasEpp
    else if gCel tipo then preguntasCelular
    else if gRet tipo then preguntasRetardo
    else if gDan tipo then preguntasDanio
    else preguntasOtros := rfl

/-- C3: for every input record, when no language-model credential is
configured, generar_preguntas_gemini returns exactly the static base
question list for the record detected offense type, with the same
elements in the same order and the same count. -/
theorem C3_sin_credencial_lista_base (parsed : DatosCitacion)
    (respuesta : Except Unit String) (maxAi : Nat) :
    generar_preguntas_gemini none parsed respuesta maxAi
      = preguntas_base_por_tipo parsed.tipo_falta := rfl

/-- C4: every failure in PDF reading or the language-model call is caught
locally and degrades to a default: leer_texto_pdf returns the empty
string, which main surfaces as insufficient text and stops without
producing output, and generar_preguntas_gemini returns the static base
list; in the embedding both functions are total, so no error reaches the
caller as a structured fault. -/
theorem C4_fallos_degradan_a_defecto :
    (∀ e : Unit, leer_texto_pdf (Except.error e) = "") ∧
    (∀ (archivos : List String) (apiKey : Option String)
      (respuesta : Except Unit String) (ahora : String) (e : Unit),
      archivos ≠ [] →
      mainRun archivos (Except.error e) apiKey respuesta ahora
        = ResultadoMain.textoInsuficiente) ∧
    (∀ (clave : String) (parsed : DatosCitacion) (maxAi : Nat) (e : Unit),
      generar_preguntas_gemini (some clave) parsed (Except.error e) maxAi
        = preguntas_base_por_tipo parsed.tipo_falta) := by
  refine ⟨fun _ => rfl, ?_, fun _ _ _ _ => rfl⟩
  intro archivos apiKey respuesta ahora e hne
  cases archivos with
  | nil => exact absurd rfl hne
  | cons a as => rfl

/-- C4 witness: the three failure degradations at concrete inputs. -/
theorem C4_fallos_degradan_a_defecto_testigo :
    leer_texto_pdf (Except.error ()) = "" ∧
    mainRun ["citacion1.pdf"] (Except.error ()) none (Except.error ())
      "07/10/2025 09:00" = ResultadoMain.textoInsuficiente ∧
    generar_preguntas_gemini (some "clave") ⟨"N", "C", "F", "F2", "D", "Retardo", "A"⟩
      (Except.error ()) 5 = preguntas_base_por_tipo "Retardo" :=
  ⟨C4_fallos_degradan_a_defecto.1 (),
   C4_fallos_degradan_a_defecto.2.1 ["citacion1.pdf"] none (Except.error ())
     "07/10/2025 09:00" () (by simp),
   C4_fallos_degradan_a_defecto.2.2 "clave" ⟨"N", "C", "F", "F2", "D", "Retardo", "A"⟩ 5 ()⟩

/-- C5: for every run, extraer_datos_citacion returns a record containing
exactly the seven string fields nombre, cedula, fecha_citacion,
fecha_hecho, detalle, tipo_falta and articulos, and no others: the record
is always an instance of the seven-field constructor. -/
theorem C5_registro_siete_campos (texto : String) :
    ∃ nombre cedula fechaCitacion fechaHecho detalle tipoFalta articulos : String,
      extraer_datos_citacion texto
        = ⟨nombre, cedula, fechaCitacion, fechaHecho, detalle, tipoFalta, articulos⟩ :=
  ⟨_, _, _, _, _, _, _, rfl⟩

/-- C6: for every input record and question list, generar_acta saves
exactly one document, inside the fixed directory ActasGeneradas, and the
file name is Acta_ followed by the extracted name with spaces replaced by
underscores and the docx extension. -/
theorem C6_un_acta_en_carpeta_fija (parsed : DatosCitacion)
    (preguntas : List String) (ahora : String) :
    (generar_acta parsed preguntas ahora).carpeta = "ActasGeneradas" ∧
    (generar_acta parsed preguntas ahora).archivo
      = "Acta_" ++ String.mk (parsed.nombre.toList.map
          (fun c => if c = ' ' then '_' else c)) ++ ".docx" ∧
    (generar_acta parsed preguntas ahora).guardados
      = ["ActasGeneradas/" ++ (generar_acta parsed preguntas ahora).archivo] ∧
    (generar_acta parsed preguntas ahora).guardados.length = 1 :=
  ⟨rfl, rfl, rfl, rfl⟩

/-- C2: offense-category classification is total and deterministic: for
every input string exactly one branch of the source if-elif chain is
selected, the enumerated keyword branches in their priority order or the
default, and preguntas_base_por_tipo returns precisely the fixed question
list of that branch. -/
theorem C2_clasificacion_total_y_unica (tipo : String) :
    ∃! c : CategoriaFalta, guardaCategoria tipo c ∧
      preguntas_base_por_tipo tipo = preguntasCategoria c := by
  rw [preguntas_base_como_cadena]
  cases hP : gProc tipo with
  | true =>
    refine ⟨.procedimiento, ⟨?_, ?_⟩, ?_⟩
    · simp [guardaCategoria, hP]
    · simp [preguntasCategoria, hP]
    · rintro c ⟨hg, _⟩
      cases c <;> simp_all [guardaCategoria]
  | false =>
  cases hA : gAus tipo with
  | true =>
    refine ⟨.ausencia, ⟨?_, ?_⟩, ?_⟩
    · simp [guardaCategoria, hP, hA]
    · simp [preguntasCategoria, hP, hA]
    · rintro c ⟨hg, _⟩
      cases c <;> simp_all [guardaCategoria]
  | false =>
  cases hE : gEpp tipo with
  | true =>
    refine ⟨.epp, ⟨?_, ?_⟩, ?_⟩
    · simp [guardaCategoria, hP, hA, hE]
    · simp [preguntasCategoria, hP, hA, hE]
    · rintro c ⟨hg, _⟩
      cases c <;> simp_all [guardaCategoria]
  | false =>
  cases hC : gCel tipo with
  | true =>
    refine ⟨.celular, ⟨?_, ?_⟩, ?_⟩
    · simp [guardaCategoria, hP, hA, hE, hC]
    · simp [preguntasCategoria, hP, hA, hE, hC]
    · rintro c ⟨hg, _⟩
      cases c <;> simp_all [guardaCategoria]
  | false =>
  cases hR : gRet tipo with
  | true =>
    refine ⟨.retardo, ⟨?_, ?_⟩, ?_⟩
    · simp [guardaCategoria, hP, hA, hE, hC, hR]
    · simp [preguntasCategoria, hP, hA, hE, hC, hR]
    · rintro c ⟨hg, _⟩
      cases c <;> simp_all [guardaCategoria]
  | false =>
  cases hD : gDan tipo with
  | true =>
    refine ⟨.danio, ⟨?_, ?_⟩, ?_⟩
    · simp [guardaCategoria, hP, hA, hE, hC, hR, hD]
    · simp [preguntasCategoria, hP, hA, hE, hC, hR, hD]
    · rintro c ⟨hg, _⟩
      cases c <;> simp_all [guardaCategoria]
  | false =>
    refine ⟨.otros, ⟨?_, ?_⟩, ?_⟩
    · simp [guardaCategoria, hP, hA, hE, hC, hR, hD]
    · simp [preguntasCategoria, hP, hA, hE, hC, hR, hD]
    · rintro c ⟨hg, _⟩
      cases c <;> simp_all [guardaCategoria]

/-- C2 witness: at a concrete offense type the unique selected branch is
the celular one, by the theorem applied to that input. -/
theorem C2_clasificacion_total_y_unica_testigo :
    ∃! c : CategoriaFalta, guardaCategoria "Uso De Celular" c ∧
      preguntas_base_por_tipo "Uso De Celular" = preguntasCategoria c :=
  C2_clasificacion_total_y_unica "Uso De Celular"

/-- C10: preguntas_base_por_tipo is insensitive to letter case and
surrounding whitespace: its value at any string equals its value at the
stripped, lowercased string. -/
theorem C10_insensible_a_caja_y_espacios (tipo : String) :
    preguntas_base_por_tipo tipo
      = preguntas_base_por_tipo (String.mk (pyLowerStr (stripL tipo.toList))) := by
  have hlist : (String.mk (pyLowerStr (stripL tipo.toList))).toList
      = pyLowerStr (stripL tipo.toList) := rfl
  have hP : gProc (String.mk (pyLowerStr (stripL tipo.toList))) = gProc tipo := by
    unfold gProc
    rw [hlist, normaTipo_idem]
  have hA : gAus (String.mk (pyLowerStr (stripL tipo.toList))) = gAus tipo := by
    unfold gAus
    rw [hlist, normaTipo_idem]
  have hE : gEpp (String.mk (pyLowerStr (stripL tipo.toList))) = gEpp tipo := by
    unfold gEpp
    rw [hlist, normaTipo_idem]
  have hC : gCel (String.mk (pyLowerStr (stripL tipo.toList))) = gCel tipo := by
    unfold gCel
    rw [hlist, normaTipo_idem]
  have hR : gRet (String.mk (pyLowerStr (stripL tipo.toList))) = gRet tipo := by
    unfold gRet
    rw [hlist, normaTipo_idem]
  have hD : gDan (String.mk (pyLowerStr (stripL tipo.toList))) = gDan tipo := by
    unfold gDan
    rw [hlist, normaTipo_idem]
  rw [preguntas_base_como_cadena, preguntas_base_como_cadena, hP, hA, hE, hC, hR, hD]

/-- C10 witness: a concrete offense type with stray case and margins maps
to the same list as its normal form, by the theorem at that input. -/
theorem C10_insensible_testigo :
    preguntas_base_por_tipo "  RETARDO LEVE " = preguntas_base_por_tipo "retardo leve" := by
  have h := C10_insensible_a_caja_y_espacios "  RETARDO LEVE "
  have he : String.mk (pyLowerStr (stripL "  RETARDO LEVE ".toList)) = "retardo leve" := by
    decide
  rwa [he] at h

theorem isPrefixOf_self_append (v b : List Char) : v.isPrefixOf (v ++ b) = true := by
  induction v with
  | nil => simp [List.isPrefixOf]
  | cons c cs ih => simp [List.isPrefixOf, ih]

theorem contiene_of_isPrefixOf {v hay : List Char} (h : v.isPrefixOf hay = true) :
    contiene v hay = true := by
  cases hay with
  | nil => simpa [contiene] using h
  | cons c r => simp [contiene, h]

theorem contiene_append_right (v a b : List Char) (h : contiene v b = true) :
    contiene v (a ++ b) = true := by
  induction a with
  | nil => simpa
  | cons c r ih => simp [contiene, ih]

theorem renderPlantilla_contiene {plantilla : List PlantillaItem}
    {ctx : List (String × String)} {k v : String}
    (hv : ctx.find? (fun kv => kv.1 == k) = some (k, v))
    (hk : PlantillaItem.campo k ∈ plantilla) :
    contiene v.toList (renderPlantilla plantilla ctx).toList = true := by
  induction plantilla with
  | nil => cases hk
  | cons it rest ih =>
    rcases List.mem_cons.mp hk with hit | hmem
    · subst hit
      have h1 : renderPlantilla (PlantillaItem.campo k :: rest) ctx
          = v ++ renderPlantilla rest ctx := by
        simp [renderPlantilla, hv]
      rw [h1, show (v ++ renderPlantilla rest ctx).toList
        = v.toList ++ (renderPlantilla rest ctx).toList from rfl]
      exact contiene_of_isPrefixOf (isPrefixOf_self_append _ _)
    · have hrest := ih hmem
      rcases it with s | k2
      · have h1 : renderPlantilla (PlantillaItem.texto s :: rest) ctx
            = s ++ renderPlantilla rest ctx := by
          simp [renderPlantilla]
        rw [h1, show (s ++ renderPlantilla rest ctx).toList
          = s.toList ++ (renderPlantilla rest ctx).toList from rfl]
        exact contiene_append_right _ _ _ hrest
      · have h1 : renderPlantilla (PlantillaItem.campo k2 :: rest) ctx
            = (((ctx.find? (fun kv => kv.1 == k2)).map (fun kv => kv.2)).getD "")
              ++ renderPlantilla rest ctx := by
          simp [renderPlantilla]
        rw [h1]
        rw [show ((((ctx.find? (fun kv => kv.1 == k2)).map (fun kv => kv.2)).getD "")
            ++ renderPlantilla rest ctx).toList
          = (((ctx.find? (fun kv => kv.1 == k2)).map (fun kv => kv.2)).getD "").toList
            ++ (renderPlantilla rest ctx).toList from rfl]
        exact contiene_append_right _ _ _ hrest

/-- C7: document rendering, modelled from the spec as placeholder
substitution over the context generar_acta builds, is a total function
(it never fails, for any record and question list), and every substituted
field whose placeholder the template mentions lands bit for bit, as a
contiguous substring, in the text of the rendered output. -/
theorem C7_render_total_y_campos_integros (plantilla : List PlantillaItem)
    (parsed : DatosCitacion) (preguntas : List String) (ahora : String)
    (k v : String)
    (hv : (generar_acta parsed preguntas ahora).contexto.find?
      (fun kv => kv.1 == k) = some (k, v))
    (hk : PlantillaItem.campo k ∈ plantilla) :
    contiene v.toList
      (renderPlantilla plantilla (generar_acta parsed preguntas ahora).contexto).toList
      = true :=
  renderPlantilla_contiene hv hk

/-- C7 witness: a concrete template with the nombre placeholder renders a
document containing the record name verbatim, by the theorem at those
inputs. -/
theorem C7_render_testigo :
    contiene "Juan Perez".toList
      (renderPlantilla
        [PlantillaItem.texto "ACTA DE DESCARGO. Nombre: ", PlantillaItem.campo "nombre",
         PlantillaItem.texto " Fecha: ", PlantillaItem.campo "fecha_generacion"]
        (generar_acta ⟨"Juan Perez", "12345678", "fc", "fh", "det", "Retardo", "arts"⟩
          ["¿Pregunta?"] "07/10/2025").contexto).toList = true :=
  C7_render_total_y_campos_integros
    [PlantillaItem.texto "ACTA DE DESCARGO. Nombre: ", PlantillaItem.campo "nombre",
     PlantillaItem.texto " Fecha: ", PlantillaItem.campo "fecha_generacion"]
    ⟨"Juan Perez", "12345678", "fc", "fh", "det", "Retardo", "arts"⟩
    ["¿Pregunta?"] "07/10/2025" "nombre" "Juan Perez" (by decide) (by decide)

theorem listaIA_spec (Y : List (List Char)) (maxAi : Nat) (hM : 1 ≤ maxAi) :
    (if (((Y.filter terminaEnPregunta).map stripL).take maxAi).isEmpty
      then [marcadorSinPreguntas.toList]
      else ((Y.filter terminaEnPregunta).map stripL).take maxAi).length ≤ maxAi ∧
    ∀ q ∈ (if (((Y.filter terminaEnPregunta).map stripL).take maxAi).isEmpty
      then [marcadorSinPreguntas.toList]
      else ((Y.filter terminaEnPregunta).map stripL).take maxAi),
      terminaEnPregunta q = true ∨ q = marcadorSinPreguntas.toList := by
  by_cases hA : (((Y.filter terminaEnPregunta).map stripL).take maxAi).isEmpty
  · rw [if_pos hA]
    refine ⟨by simpa using hM, ?_⟩
    intro q hq
    rcases List.mem_singleton.mp hq with rfl
    exact Or.inr rfl
  · rw [if_neg hA]
    refine ⟨List.length_take_le maxAi _, ?_⟩
    intro q hq
    have hq2 := List.take_subset maxAi _ hq
    rcases List.mem_map.mp hq2 with ⟨q', hq', rfl⟩
    have hfin := (List.mem_filter.mp hq').2
    exact Or.inl (terminaEnPregunta_stripL hfin)

theorem preguntasIA_cota_y_forma (texto : String) (maxAi : Nat) (hM : 1 ≤ maxAi) :
    (preguntasIA texto maxAi).length ≤ maxAi ∧
    ∀ q ∈ preguntasIA texto maxAi,
      terminaEnPregunta q = true ∨ q = marcadorSinPreguntas.toList :=
  listaIA_spec _ maxAi hM

/-- C9: for every input record, the list generar_preguntas_gemini returns
always has the static base list for the record offense type as a prefix,
unmodified and in order, followed by at most five additional elements,
each of which ends in a question mark or is the literal fallback marker;
this covers the no-credential, model-success and model-failure paths. -/
theorem C9_base_es_prefijo (apiKey : Option String) (parsed : DatosCitacion)
    (respuesta : Except Unit String) :
    ∃ extra : List String,
      generar_preguntas_gemini apiKey parsed respuesta 5
        = preguntas_base_por_tipo parsed.tipo_falta ++ extra ∧
      extra.length ≤ 5 ∧
      ∀ q ∈ extra, terminaEnPregunta q.toList = true ∨ q = marcadorSinPreguntas := by
  cases apiKey with
  | none => exact ⟨[], by simp [generar_preguntas_gemini], by simp, by simp⟩
  | some clave =>
    cases respuesta with
    | error e => exact ⟨[], by simp [generar_preguntas_gemini], by simp, by simp⟩
    | ok texto =>
      refine ⟨(preguntasIA texto 5).map String.mk, rfl, ?_, ?_⟩
      · have h := (preguntasIA_cota_y_forma texto 5 (by omega)).1
        simpa using h
      · intro q hq
        rcases List.mem_map.mp hq with ⟨q', hq', rfl⟩
        rcases (preguntasIA_cota_y_forma texto 5 (by omega)).2 q' hq' with h | h
        · exact Or.inl h
        · exact Or.inr (by rw [h]; rfl)

/-- C9 witness: a concrete run in which the model answered unusable text,
by the theorem at those inputs: the extra part reduces to the fallback
marker after the base list. -/
theorem C9_base_es_prefijo_testigo :
    ∃ extra : List String,
      generar_preguntas_gemini (some "clave")
        ⟨"N", "C", "F", "F2", "D", "Retardo", "A"⟩ (Except.ok "sin nada util aqui") 5
        = preguntas_base_por_tipo
            (DatosCitacion.tipo_falta ⟨"N", "C", "F", "F2", "D", "Retardo", "A"⟩)
          ++ extra ∧
      extra.length ≤ 5 ∧
      ∀ q ∈ extra, terminaEnPregunta q.toList = true ∨ q = marcadorSinPreguntas :=
  C9_base_es_prefijo (some "clave") ⟨"N", "C", "F", "F2", "D", "Retardo", "A"⟩
    (Except.ok "sin nada util aqui")

theorem okPar_comm (x y : Char) : okPar x y = okPar y x := by
  simp [okPar, Bool.and_comm]

theorem sinDoble_tail {a : Char} {l : List Char}
    (h : sinDobleEspacio (a :: l) = true) : sinDobleEspacio l = true := by
  cases l with
  | nil => rfl
  | cons b r =>
    simp only [sinDobleEspacio, Bool.and_eq_true] at h
    exact h.2

theorem sinDoble_cons {a : Char} {l : List Char} (ha : pyIsSpace a = false)
    (h : sinDobleEspacio l = true) : sinDobleEspacio (a :: l) = true := by
  cases l with
  | nil => rfl
  | cons b r => simp [sinDobleEspacio, okPar, ha, h]

theorem sinDoble_dropWhile (p : Char → Bool) {l : List Char}
    (h : sinDobleEspacio l = true) : sinDobleEspacio (l.dropWhile p) = true := by
  induction l with
  | nil => simpa using h
  | cons a r ih =>
    by_cases hp : p a
    · rw [List.dropWhile_cons_of_pos hp]
      exact ih (sinDoble_tail h)
    · rw [List.dropWhile_cons_of_neg hp]
      exact h

theorem sinDoble_append_singleton (m : List Char) (a : Char) :
    sinDobleEspacio (m ++ [a]) = (sinDobleEspacio m &&
      (match m.getLast? with | none => true | some y => okPar y a)) := by
  induction m with
  | nil => simp [sinDobleEspacio]
  | cons x r ih =>
    cases r with
    | nil => simp [sinDobleEspacio]
    | cons y t =>
      simp only [List.cons_append] at ih ⊢
      show (sinDobleEspacio (x :: y :: (t ++ [a]))) = _
      rw [show sinDobleEspacio (x :: y :: (t ++ [a]))
        = (okPar x y && sinDobleEspacio (y :: (t ++ [a]))) from rfl]
      rw [ih]
      rw [show sinDobleEspacio (x :: y :: t)
        = (okPar x y && sinDobleEspacio (y :: t)) from rfl]
      rw [List.getLast?_cons_cons]
      rw [Bool.and_assoc]

theorem sinDoble_reverse (l : List Char) :
    sinDobleEspacio l.reverse = sinDobleEspacio l := by
  induction l with
  | nil => rfl
  | cons a r ih =>
    rw [List.reverse_cons, sinDoble_append_singleton, ih, List.getLast?_reverse]
    cases r with
    | nil => simp [sinDobleEspacio]
    | cons b t =>
      simp only [List.head?_cons]
      rw [show sinDobleEspacio (a :: b :: t)
        = (okPar a b && sinDobleEspacio (b :: t)) from rfl]
      rw [okPar_comm b a, Bool.and_comm]

theorem sinDoble_stripL {l : List Char} (h : sinDobleEspacio l = true) :
    sinDobleEspacio (stripL l) = true := by
  unfold stripL
  rw [sinDoble_reverse]
  exact sinDoble_dropWhile _ (by rw [sinDoble_reverse]; exact sinDoble_dropWhile _ h)

theorem mem_of_mem_stripL {c : Char} {l : List Char} (h : c ∈ stripL l) : c ∈ l := by
  unfold stripL at h
  rw [List.mem_reverse] at h
  have h2 := List.dropWhile_subset (p := pyIsSpace) h
  rw [List.mem_reverse] at h2
  exact List.dropWhile_subset (p := pyIsSpace) h2

theorem colapsaWs_blanco_es_espacio {l : List Char} :
    ∀ c ∈ colapsaWs l, pyIsSpace c = true → c = ' ' := by
  induction l using colapsaWs.induct with
  | case1 => simp [colapsaWs]
  | case2 c hc =>
    intro d hd _
    simp [colapsaWs, hc] at hd
    exact hd
  | case3 c hc =>
    intro d hd hws
    simp [colapsaWs, hc] at hd
    subst hd
    exact absurd hws hc
  | case4 a b rest hab ih =>
    rw [show colapsaWs (a :: b :: rest)
        = (if pyIsSpace a && pyIsSpace b then colapsaWs (b :: rest)
           else (if pyIsSpace a then ' ' else a) :: colapsaWs (b :: rest)) from rfl,
      if_pos hab]
    exact ih
  | case5 a b rest hab ih =>
    rw [show colapsaWs (a :: b :: rest)
        = (if pyIsSpace a && pyIsSpace b then colapsaWs (b :: rest)
           else (if pyIsSpace a then ' ' else a) :: colapsaWs (b :: rest)) from rfl,
      if_neg hab]
    intro d hd hws
    rcases List.mem_cons.mp hd with rfl | hmem
    · by_cases ha : pyIsSpace a = true
      · simp [ha]
      · rw [if_neg ha] at hws ⊢
        exact absurd hws ha
    · exact ih d hmem hws

theorem colapsaWs_head_nonws {b : Char} (rest : List Char) (hb : pyIsSpace b = false) :
    (colapsaWs (b :: rest)).head? = some b := by
  cases rest with
  | nil => simp [colapsaWs, hb]
  | cons d t => simp [colapsaWs, hb]

theorem sinDoble_colapsaWs (l : List Char) : sinDobleEspacio (colapsaWs l) = true := by
  induction l using colapsaWs.induct with
  | case1 => rfl
  | case2 c hc => simp [colapsaWs, hc, sinDobleEspacio]
  | case3 c hc => simp [colapsaWs, hc, sinDobleEspacio]
  | case4 a b rest hab ih =>
    rw [show colapsaWs (a :: b :: rest)
        = (if pyIsSpace a && pyIsSpace b then colapsaWs (b :: rest)
           else (if pyIsSpace a then ' ' else a) :: colapsaWs (b :: rest)) from rfl,
      if_pos hab]
    exact ih
  | case5 a b rest hab ih =>
    rw [show colapsaWs (a :: b :: rest)
        = (if pyIsSpace a && pyIsSpace b then colapsaWs (b :: rest)
           else (if pyIsSpace a then ' ' else a) :: colapsaWs (b :: rest)) from rfl,
      if_neg hab]
    by_cases ha : pyIsSpace a = true
    · have hb : pyIsSpace b = false := by
        cases hb2 : pyIsSpace b
        · rfl
        · exact absurd (by simp [ha, hb2]) hab
      rw [if_pos ha]
      have hhead := colapsaWs_head_nonws rest hb
      cases hR : colapsaWs (b :: rest) with
      | nil => rfl
      | cons r0 rr =>
        rw [hR] at hhead
        simp at hhead
        rw [show sinDobleEspacio (' ' :: r0 :: rr)
          = (okPar ' ' r0 && sinDobleEspacio (r0 :: rr)) from rfl]
        rw [hR] at ih
        have hr0 : pyIsSpace r0 = false := by rw [hhead]; exact hb
        simp [okPar, hr0, ih]
    · have ha2 : pyIsSpace a = false := by
        cases ha2 : pyIsSpace a
        · rfl
        · exact absurd ha2 ha
      rw [if_neg ha]
      exact sinDoble_cons ha2 ih

/-- C8: for every PDF input, the string leer_texto_pdf returns is
whitespace-normalized: it contains no newline or carriage return (every
whitespace character in it is the plain space), no two consecutive
whitespace characters, and no leading or trailing whitespace. -/
theorem C8_texto_normalizado (lectura : Except Unit (List (Option String))) :
    (∀ c ∈ (leer_texto_pdf lectura).toList,
      c ≠ '\n' ∧ c ≠ '\r' ∧ (pyIsSpace c = true → c = ' ')) ∧
    sinDobleEspacio (leer_texto_pdf lectura).toList = true ∧
    (∀ c, (leer_texto_pdf lectura).toList.head? = some c → pyIsSpace c = false) ∧
    (∀ c, (leer_texto_pdf lectura).toList.getLast? = some c → pyIsSpace c = false) := by
  cases lectura with
  | error e =>
    refine ⟨?_, ?_, ?_, ?_⟩ <;> simp [leer_texto_pdf, sinDobleEspacio]
  | ok paginas =>
    cases hN : paginas.any (fun p => p.isNone) with
    | true =>
      have hL : leer_texto_pdf (Except.ok paginas) = "" := by
        simp [leer_texto_pdf, hN]
      rw [hL]
      refine ⟨?_, ?_, ?_, ?_⟩ <;> simp [sinDobleEspacio]
    | false =>
      have hL : (leer_texto_pdf (Except.ok paginas)).toList
          = stripL (colapsaWs
              (String.join (paginas.map (fun p => p.getD "" ++ "\n"))).toList) := by
        simp [leer_texto_pdf, hN]
      rw [hL]
      refine ⟨?_, sinDoble_stripL (sinDoble_colapsaWs _), ?_, ?_⟩
      · intro c hc
        have hmem := mem_of_mem_stripL hc
        have hws := colapsaWs_blanco_es_espacio c hmem
        refine ⟨?_, ?_, hws⟩
        · intro hcn
          subst hcn
          exact absurd (hws (by decide)) (by decide)
        · intro hcr
          subst hcr
          exact absurd (hws (by decide)) (by decide)
      · intro c hc
        exact stripL_head?_not hc
      · intro c hc
        exact stripL_getLast?_not hc

/-- C8 witness: a concrete two-page reading collapses to a single-spaced,
stripped line; the invariant instance follows from the theorem at that
input. -/
theorem C8_texto_normalizado_testigo :
    leer_texto_pdf (Except.ok [some "  Hola \t mundo", some "línea   dos"])
      = "Hola mundo línea dos" ∧
    sinDobleEspacio "Hola mundo línea dos".toList = true := by
  have h := (C8_texto_normalizado
    (Except.ok [some "  Hola \t mundo", some "línea   dos"])).2.1
  have he : leer_texto_pdf (Except.ok [some "  Hola \t mundo", some "línea   dos"])
      = "Hola mundo línea dos" := by decide
  rw [he] at h
  exact ⟨he, h⟩

/-- C1 amended: when a field pattern is absent from the normalized
transcript, the extractor returns that field sentinel; when the pattern
matches, the field is the captured group normalized as the source does:
stripped for cedula, fecha_citacion, fecha_hecho and detalle, stripped
and title-cased for nombre and tipo_falta, and for the articles the
delimited block cleaned and length-checked. -/
theorem C1_extractores_segun_patron (texto : String) :
    (patternAbsent nombreRe (normalizaTexto texto) →
      (extraer_datos_citacion texto).nombre = "No encontrado") ∧
    (∀ (h : Hallazgo) (g : List Char),
      reSearch nombreRe (normalizaTexto texto) = some h → h.grupo = some g →
      (extraer_datos_citacion texto).nombre = String.mk (pyTitle (stripL g))) ∧
    (patternAbsent cedulaRe (normalizaTexto texto) →
      (extraer_datos_citacion texto).cedula = "No encontrada") ∧
    (∀ (h : Hallazgo) (g : List Char),
      reSearch cedulaRe (normalizaTexto texto) = some h → h.grupo = some g →
      (extraer_datos_citacion texto).cedula = String.mk (stripL g)) ∧
    (patternAbsent fechaCitacionRe (normalizaTexto texto) →
      (extraer_datos_citacion texto).fecha_citacion = "No encontrada") ∧
    (∀ (h : Hallazgo) (g : List Char),
      reSearch fechaCitacionRe (normalizaTexto texto) = some h → h.grupo = some g →
      (extraer_datos_citacion texto).fecha_citacion = String.mk (stripL g)) ∧
    (patternAbsent fechaHechoRe (normalizaTexto texto) →
      (extraer_datos_citacion texto).fecha_hecho = "No encontrada") ∧
    (∀ (h : Hallazgo) (g : List Char),
      reSearch fechaHechoRe (normalizaTexto texto) = some h → h.grupo = some g →
      (extraer_datos_citacion texto).fecha_hecho = String.mk (stripL g)) ∧
    (patternAbsent detalleRe (normalizaTexto texto) →
      (extraer_datos_citacion texto).detalle = "No se encontró detalle") ∧
    (∀ (h : Hallazgo) (g : List Char),
      reSearch detalleRe (normalizaTexto texto) = some h → h.grupo = some g →
      (extraer_datos_citacion texto).detalle = String.mk (stripL g)) ∧
    (patternAbsent tipoFaltaRe (normalizaTexto texto) →
      (extraer_datos_citacion texto).tipo_falta = "No encontrada") ∧
    (∀ (h : Hallazgo) (g : List Char),
      reSearch tipoFaltaRe (normalizaTexto texto) = some h → h.grupo = some g →
      (extraer_datos_citacion texto).tipo_falta = String.mk (pyTitle (stripL g))) ∧
    ((patternAbsent inicioArticulosRe (normalizaTexto texto) ∨
      patternAbsent finArticulosRe (normalizaTexto texto)) →
      (extraer_datos_citacion texto).articulos
        = "No se encontraron los artículos en la citación.") ∧
    (∀ (hIni hFin : Hallazgo),
      reSearch inicioArticulosRe (normalizaTexto texto) = some hIni →
      reSearch finArticulosRe (normalizaTexto texto) = some hFin →
      (extraer_datos_citacion texto).articulos
        = (if 20 < (bloqueArticulos (normalizaTexto texto) hIni.fin hFin.inicio).length
           then String.mk (bloqueArticulos (normalizaTexto texto) hIni.fin hFin.inicio)
           else "No se encontraron artículos válidos.")) := by
  refine ⟨?_, ?_, ?_, ?_, ?_, ?_, ?_, ?_, ?_, ?_, ?_, ?_, ?_, ?_⟩
  · intro habs
    have hn := (reSearch_eq_none_iff nombreRe (normalizaTexto texto)).mpr habs
    simp [extraer_datos_citacion, hn]
  · intro h g hs hg
    simp [extraer_datos_citacion, hs, hg]
  · intro habs
    have hn := (reSearch_eq_none_iff cedulaRe (normalizaTexto texto)).mpr habs
    simp [extraer_datos_citacion, hn]
  · intro h g hs hg
    simp [extraer_datos_citacion, hs, hg]
  · intro habs
    have hn := (reSearch_eq_none_iff fechaCitacionRe (normalizaTexto texto)).mpr habs
    simp [extraer_datos_citacion, hn]
  · intro h g hs hg
    simp [extraer_datos_citacion, hs, hg]
  · intro habs
    have hn := (reSearch_eq_none_iff fechaHechoRe (normalizaTexto texto)).mpr habs
    simp [extraer_datos_citacion, hn]
  · intro h g hs hg
    simp [extraer_datos_citacion, hs, hg]
  · intro habs
    have hn := (reSearch_eq_none_iff detalleRe (normalizaTexto texto)).mpr habs
    simp [extraer_datos_citacion, hn]
  · intro h g hs hg
    simp [extraer_datos_citacion, hs, hg]
  · intro habs
    have hn := (reSearch_eq_none_iff tipoFaltaRe (normalizaTexto texto)).mpr habs
    simp [extraer_datos_citacion, hn]
  · intro h g hs hg
    simp [extraer_datos_citacion, hs, hg]
  · intro habs
    rcases habs with h | h
    · have hn := (reSearch_eq_none_iff inicioArticulosRe (normalizaTexto texto)).mpr h
      cases hy : reSearch finArticulosRe (normalizaTexto texto) <;>
        simp [extraer_datos_citacion, extraer_articulos_completos, hn, hy]
    · have hn := (reSearch_eq_none_iff finArticulosRe (normalizaTexto texto)).mpr h
      cases hy : reSearch inicioArticulosRe (normalizaTexto texto) <;>
        simp [extraer_datos_citacion, extraer_articulos_completos, hn, hy]
  · intro hIni hFin hs1 hs2
    simp [extraer_datos_citacion, extraer_articulos_completos, hs1, hs2]

set_option maxRecDepth 1000000

/-- C1 counterexample: at the known-format transcript the name extractor
returns a title-cased value that occurs nowhere in the transcript, so the
field is not the matched literal substring (the match is the upper-case
run, which strip and title rewrite). -/
theorem C1_contraejemplo_literal :
    (extraer_datos_citacion citacionEjemplo).nombre = "Juan Perez" ∧
    contiene "Juan Perez".toList citacionEjemplo.toList = false := by
  constructor
  · decide
  · decide

/-- C1 witness: the amended theorem applied at the known-format
transcript, with each search result and capture discharged concretely,
and at the empty transcript, where every pattern is semantically absent
and every field is its sentinel. -/
theorem C1_extractores_testigo :
    extraer_datos_citacion citacionEjemplo = ⟨"Juan Perez", "12345678",
      "5 de mayo de 2025 a las 8:00 a.m.", "2025-05-01",
      "llego tarde sin aviso previo", "Retardo",
      "Articulo 54 del reglamento interno de trabajo"⟩ ∧
    extraer_datos_citacion "" = ⟨"No encontrado", "No encontrada", "No encontrada",
      "No encontrada", "No se encontró detalle", "No encontrada",
      "No se encontraron los artículos en la citación."⟩ := by
  have hpos := C1_extractores_segun_patron citacionEjemplo
  have hneg := C1_extractores_segun_patron ""
  constructor
  · have h1 := hpos.2.1 ⟨0, 22, some "JUAN PEREZ ".toList⟩ "JUAN PEREZ ".toList
      (by decide) rfl
    have h2 := hpos.2.2.2.1 ⟨0, 30, some "12345678".toList⟩ "12345678".toList
      (by decide) rfl
    have h3 := hpos.2.2.2.2.2.1
      ⟨42, 82, some "5 de mayo de 2025 a las 8:00 a.m.".toList⟩
      "5 de mayo de 2025 a las 8:00 a.m.".toList (by decide) rfl
    have h4 := hpos.2.2.2.2.2.2.2.1 ⟨143, 171, some "2025-05-01".toList⟩
      "2025-05-01".toList (by decide) rfl
    have h5 := hpos.2.2.2.2.2.2.2.2.2.1
      ⟨104, 159, some "llego tarde sin aviso previo ".toList⟩
      "llego tarde sin aviso previo ".toList (by decide) rfl
    have h6 := hpos.2.2.2.2.2.2.2.2.2.2.2.1 ⟨172, 195, some "Retardo".toList⟩
      "Retardo".toList (by decide) rfl
    have h7 := hpos.2.2.2.2.2.2.2.2.2.2.2.2.2 ⟨196, 298, none⟩ ⟨345, 406, none⟩
      (by decide) (by decide)
    have e : extraer_datos_citacion citacionEjemplo
        = ⟨(extraer_datos_citacion citacionEjemplo).nombre,
           (extraer_datos_citacion citacionEjemplo).cedula,
           (extraer_datos_citacion citacionEjemplo).fecha_citacion,
           (extraer_datos_citacion citacionEjemplo).fecha_hecho,
           (extraer_datos_citacion citacionEjemplo).detalle,
           (extraer_datos_citacion citacionEjemplo).tipo_falta,
           (extraer_datos_citacion citacionEjemplo).articulos⟩ := rfl
    rw [e, h1, h2, h3, h4, h5, h6, h7]
    decide
  · have a1 : patternAbsent nombreRe (normalizaTexto "") := by
      intro i
      show mRE nombreRe (List.drop i []) = []
      rw [List.drop_nil]
      decide
    have a2 : patternAbsent cedulaRe (normalizaTexto "") := by
      intro i
      show mRE cedulaRe (List.drop i []) = []
      rw [List.drop_nil]
      decide
    have a3 : patternAbsent fechaCitacionRe (normalizaTexto "") := by
      intro i
      show mRE fechaCitacionRe (List.drop i []) = []
      rw [List.drop_nil]
      decide
    have a4 : patternAbsent fechaHechoRe (normalizaTexto "") := by
      intro i
      show mRE fechaHechoRe (List.drop i []) = []
      rw [List.drop_nil]
      decide
    have a5 : patternAbsent detalleRe (normalizaTexto "") := by
      intro i
      show mRE detalleRe (List.drop i []) = []
      rw [List.drop_nil]
      decide
    have a6 : patternAbsent tipoFaltaRe (normalizaTexto "") := by
      intro i
      show mRE tipoFaltaRe (List.drop i []) = []
      rw [List.drop_nil]
      decide
    have a7 : patternAbsent inicioArticulosRe (normalizaTexto "") := by
      intro i
      show mRE inicioArticulosRe (List.drop i []) = []
      rw [List.drop_nil]
      decide
    have h1 := hneg.1 a1
    have h2 := hneg.2.2.1 a2
    have h3 := hneg.2.2.2.2.1 a3
    have h4 := hneg.2.2.2.2.2.2.1 a4
    have h5 := hneg.2.2.2.2.2.2.2.2.1 a5
    have h6 := hneg.2.2.2.2.2.2.2.2.2.2.1 a6
    have h7 := hneg.2.2.2.2.2.2.2.2.2.2.2.2.1 (Or.inl a7)
    have e : extraer_datos_citacion ""
        = ⟨(extraer_datos_citacion "").nombre,
           (extraer_datos_citacion "").cedula,
           (extraer_datos_citacion "").fecha_citacion,
           (extraer_datos_citacion "").fecha_hecho,
           (extraer_datos_citacion "").detalle,
           (extraer_datos_citacion "").tipo_falta,
           (extraer_datos_citacion "").articulos⟩ := rfl
    rw [e, h1, h2, h3, h4, h5, h6, h7]
